import Mathlib

/-!
Verification of the request pipeline and service lifecycle of the Jackettio
addon server, shallowly embedded from src/index.js.  Pure fragments of the
JavaScript are translated into executable Lean definitions; external calls
(indexer query, debrid resolution, store insertion) are passed in as
Except-valued arguments so that every failure combination can be analysed.
-/

/-! ## Rate limiter (src/index.js lines 68-89)

The application configures the rate-limit middleware with a fixed window of
config.rateLimitWindow seconds and a budget of config.rateLimitRequest
requests per window, keyed by client IP.  The per-key window entry holds the
hit counter and the time at which the window resets; an incoming request
either opens a fresh window (first hit, or the previous window elapsed) or
increments the counter of the live window, and is admitted while the counter
stays within the configured maximum. -/

structure RLEntry where
  totalHits : Nat
  resetTime : Nat
deriving DecidableEq

/-- One hit for a key: open a fresh window when there is no live entry or the
current window has elapsed, otherwise bump the live counter. -/
def rlIncrement (W now : Nat) : Option RLEntry → RLEntry
  | none => { totalHits := 1, resetTime := now + W }
  | some e =>
    if e.resetTime ≤ now then { totalHits := 1, resetTime := now + W }
    else { totalHits := e.totalHits + 1, resetTime := e.resetTime }

/-- Run a sequence of requests (given by their arrival times) for one key,
returning the final window entry and the per-request admission decisions
(true = admitted, false = rejected, i.e. the over-limit handler fires). -/
def rlRun (W M : Nat) : Option RLEntry → List Nat → Option RLEntry × List Bool
  | st, [] => (st, [])
  | st, t :: ts =>
    let e := rlIncrement W t st
    let rest := rlRun W M (some e) ts
    (rest.1, decide (e.totalHits ≤ M) :: rest.2)

/-- Express route pattern of the configured stream-listing route
(src/index.js line 174), compared against req.route.path in the limiter
handler (line 75). -/
def streamRoutePath : String := "/:userConfig/stream/:type/:id.json"

/-- Title of the synthetic stream entry produced by the limiter handler
(src/index.js line 79): the retry-after interval in minutes, rounded up,
computed from the milliseconds left until the window resets. -/
def rateLimitTitle (resetInMs : Nat) : String :=
  "🛑 Trop de requêtes, veuillez réessayer dans "
    ++ toString ((resetInMs + 59999) / 60000) ++ " minute(s)."

/-- Modelled: default status code of the rate-limit middleware options; the
configuration in src/index.js lines 68-86 does not override it. -/
def rateLimitStatusCode : Nat := 429

/-- Modelled: default textual body of the rate-limit middleware options; the
configuration in src/index.js lines 68-86 does not override it. -/
def rateLimitMessage : String := "Too many requests, please try again later."

/-- Where a limiter invocation sits in the Express middleware chain.  Express
sets req.route only while dispatching a route handler stack; middleware
installed with app.use runs with req.route undefined.  The limiter is
installed both globally (app.use(limiter), src/index.js line 89) and as
route-level middleware of the stream route only (line 174). -/
inductive RouteCtx where
  | appLevel
  | routeLevel (path : String)
deriving DecidableEq

/-- Responses the limiter handler can produce: an HTTP 200 JSON body shaped
like a stream list, or a plain status-plus-text reply. -/
inductive RLReply where
  | streamJson (status : Nat) (entries : List (String × String × String))
  | plain (status : Nat) (body : String)
deriving DecidableEq

/-- Outcome of one invocation of the limiter handler.  In an app-level
invocation req.route is undefined, so the read of req.route.path on
src/index.js line 75 throws a TypeError before any reply is produced. -/
inductive HandlerOutcome where
  | reply (r : RLReply)
  | faulted
deriving DecidableEq

/-- The over-limit handler of src/index.js lines 74-85: on the stream route
it replies HTTP 200 with a single synthetic stream entry naming the addon
and stating the retry interval; on any other route path it replies with the
options status code and message; with no route context it faults reading
req.route.path. -/
def limiterHandler (addonName : String) (ctx : RouteCtx) (resetInMs : Nat) :
    HandlerOutcome :=
  match ctx with
  | RouteCtx.appLevel => HandlerOutcome.faulted
  | RouteCtx.routeLevel p =>
    if p = streamRoutePath then
      HandlerOutcome.reply
        (RLReply.streamJson 200 [(addonName, rateLimitTitle resetInMs, "#")])
    else
      HandlerOutcome.reply (RLReply.plain rateLimitStatusCode rateLimitMessage)

/-- One limiter pass over the shared per-key store: increment the entry for
the given key and return the updated store together with the entry. -/
def rlStoreIncr (W : Nat) (store : String → Option RLEntry) (key : String)
    (now : Nat) : (String → Option RLEntry) × RLEntry :=
  let e := rlIncrement W now (store key)
  (fun k => if k = key then some e else store k, e)

/-- A stream-route request travelling the middleware chain of src/index.js:
first the globally installed limiter (line 89), which runs before the
middleware of lines 95-101 sets req.clientIp and therefore keys on the raw
connection IP; if admitted, the clientIp middleware takes the
CF-Connecting-IP header when present (else the connection IP), and the
route-level limiter of line 174 runs again on that key.  Returns the updated
store and whether the request reached the route handler. -/
def streamRoutePass (W M : Nat) (store : String → Option RLEntry)
    (reqIp : String) (cfHeader : Option String) (now : Nat) :
    (String → Option RLEntry) × Bool :=
  let r1 := rlStoreIncr W store reqIp now
  if r1.2.totalHits ≤ M then
    let clientIp := cfHeader.getD reqIp
    let r2 := rlStoreIncr W r1.1 clientIp now
    (r2.1, decide (r2.2.totalHits ≤ M))
  else
    (r1.1, false)

/-! ## Stream-listing route handler (src/index.js lines 174-195)

The handler decodes the user configuration from the URL, asks
jackettio.getStreams for the stream list, inserts every stream into the
LokiJS streams collection, and replies with the list; the whole body sits in
one try/catch whose catch logs the error and replies with an empty list.
The external steps are passed in as Except-valued arguments. -/

structure JsonReply (α : Type) where
  status : Nat
  contentType : String
  streams : List α
deriving DecidableEq

/-- The respond helper of src/index.js lines 60-65: sends the body as JSON
with the default HTTP 200 status. -/
def respond {α : Type} (streams : List α) : JsonReply α :=
  { status := 200, contentType := "application/json", streams := streams }

/-- The streams.forEach insertion loop of src/index.js lines 186-188: a
throwing insert aborts the loop and propagates into the enclosing catch. -/
def insertAll {α E : Type} (ins : α → Except E Unit) : List α → Except E Unit
  | [] => Except.ok ()
  | s :: rest =>
    match ins s with
    | Except.ok _ => insertAll ins rest
    | Except.error e => Except.error e

/-- The stream route handler body (src/index.js lines 174-195).  Returns the
JSON reply together with a flag recording whether the catch clause logged an
error.  decodeRes is the result of parsing the base64 user configuration,
getStreams the jackettio.getStreams call, ins the per-record store insert. -/
def streamHandler {Cfg E₁ E₂ E₃ α : Type}
    (decodeRes : Except E₁ Cfg)
    (getStreams : Cfg → Except E₂ (List α))
    (ins : α → Except E₃ Unit) : JsonReply α × Bool :=
  match decodeRes with
  | Except.error _ => (respond [], true)
  | Except.ok cfg =>
    match getStreams cfg with
    | Except.error _ => (respond [], true)
    | Except.ok streams =>
      match insertAll ins streams with
      | Except.error _ => (respond [], true)
      | Except.ok _ => (respond streams, false)

/-! ## Download route handler (src/index.js lines 205-246) -/

/-- Modelled from the spec: the debrid error taxonomy exported as
debrid.ERROR by lib/debrid.js, which is not under src/.  Per section 4.2 of
the spec it is a fixed set of five classified kinds with pairwise distinct
message constants; an error whose message matches none of them is
unclassified and is modelled as Option.none. -/
inductive DebridErrorKind where
  | notReady
  | expiredApiKey
  | notPremium
  | accessDenied
  | twoFactorAuth
deriving DecidableEq

inductive DownloadReply where
  | redirect (location : String)
deriving DecidableEq

/-- The switch on err.message of src/index.js lines 226-244, transcribed
case by case: each classified kind selects its canned video path, everything
else falls to the default generic error video. -/
def errorRedirectTarget : Option DebridErrorKind → String
  | some DebridErrorKind.notReady => "/videos/not_ready.mp4"
  | some DebridErrorKind.expiredApiKey => "/videos/expired_api_key.mp4"
  | some DebridErrorKind.notPremium => "/videos/not_premium.mp4"
  | some DebridErrorKind.accessDenied => "/videos/access_denied.mp4"
  | some DebridErrorKind.twoFactorAuth => "/videos/two_factor_auth.mp4"
  | none => "/videos/error.mp4"

/-- The download route handler (src/index.js lines 210-245): on a resolved
URL it redirects there; on any thrown error it redirects to the canned video
selected by the switch on the error message. -/
def downloadHandler (resolveRes : Except (Option DebridErrorKind) String) :
    DownloadReply :=
  match resolveRes with
  | Except.ok url => DownloadReply.redirect url
  | Except.error k => DownloadReply.redirect (errorRedirectTarget k)

/-! ## Redacted download log line (src/index.js lines 218-220)

Strings are embedded as lists of characters. -/

def sixStars : List Char := ['*', '*', '*', '*', '*', '*']

/-- The cut helper of src/index.js line 219: an empty (falsy) value maps to
the empty string, otherwise the first five characters, a mask, and the last
five characters (substr(0,5) and substr(-5), both of which return the whole
value when it is shorter than five characters). -/
def cut (value : List Char) : List Char :=
  if value = [] then []
  else value.take 5 ++ sixStars ++ value.drop (value.length - 5)

/-- The components of the parsed redirect URL that line 220 reads. -/
structure ParsedUrl where
  protocol : List Char
  host : List Char
  pathname : List Char
  search : List Char
deriving DecidableEq

/-- The console.log line of src/index.js line 220: request id, protocol and
host in clear, pathname and query string passed through cut. -/
def redirectLogLine (id : List Char) (u : ParsedUrl) : List Char :=
  id ++ (" : Redirect: ").toList ++ u.protocol ++ ("//").toList ++ u.host
    ++ cut u.pathname ++ cut u.search

/-! ## User configuration and immutable keys -/

inductive ConfVal where
  | str (s : String)
  | num (n : Int)
  | boolVal (b : Bool)
deriving DecidableEq

/-- A user configuration object: an association of setting names to values,
looked up first-match like a JavaScript object. -/
abbrev UserConfig := List (String × ConfVal)

/-- Modelled from the spec: one step of the immutable-key restoration that
lib/config.js and lib/jackettio.js (not under src/) perform on the decoded
configuration, per section 4.1 of the spec: the assignment
userConfig[key] = defaults[key] overwrites whatever the client supplied for
that key with the server default (or removes it when there is no default). -/
def restoreKey (defaults : UserConfig) (cfg : UserConfig) (k : String) :
    UserConfig :=
  match defaults.lookup k with
  | some v => (k, v) :: cfg.filter (fun p => p.1 != k)
  | none => cfg.filter (fun p => p.1 != k)

/-- Modelled from the spec: the full restoration pass over the configured
list of immutable keys (config.immulatableUserConfigKeys), applied to the
client-decoded configuration before the request handlers use it. -/
def enforceImmutableKeys (ik : List String) (defaults cfg : UserConfig) :
    UserConfig :=
  ik.foldl (restoreKey defaults) cfg

/-- The effective configuration pipeline: a successfully decoded client blob
is normalised by the immutable-key restoration and stays a success; a decode
failure propagates.  The presence of an immutable key in the blob never
turns a success into a failure. -/
def effectiveUserConfig (ik : List String) (defaults : UserConfig)
    (decodeRes : Except String UserConfig) : Except String UserConfig :=
  Except.map (enforceImmutableKeys ik defaults) decodeRes

/-! ## Lifecycle traces (src/index.js lines 297-366)

The graceful-shutdown handler and the uncaught-exception callback are
straight-line effectful code; they are embedded as the ordered list of
lifecycle events they perform. -/

inductive TimerId where
  | torrentFolderClean
  | cacheVacuum
  | cacheClean
deriving DecidableEq

inductive LifeEvent where
  | clearTimer (t : TimerId)
  | flushStore
  | closeListener
  | exitProcess (code : Nat)
deriving DecidableEq

/-- The recurring timers pushed onto the intervals list at startup
(src/index.js lines 297-305): hourly torrent-folder cleanup, weekly cache
vacuum, hourly cache clean. -/
def startupTimers : List TimerId :=
  [TimerId.torrentFolderClean, TimerId.cacheVacuum, TimerId.cacheClean]

inductive Signal where
  | sigint
  | sigterm
deriving DecidableEq

/-- closeGracefully (src/index.js lines 307-317), registered for SIGINT and
SIGTERM (lines 319-320): clear every interval, then db.saveDatabase, then in
its callback server.close, then in its callback process.exit(0). -/
def closeGracefullyTrace (_s : Signal) : List LifeEvent :=
  startupTimers.map LifeEvent.clearTimer
    ++ [LifeEvent.flushStore, LifeEvent.closeListener, LifeEvent.exitProcess 0]

/-- The uncaught-exception capture callback (src/index.js lines 360-366):
db.saveDatabase, then process.exit(1) in its callback.  No interval is
cleared and the server is not closed. -/
def uncaughtExceptionTrace : List LifeEvent :=
  [LifeEvent.flushStore, LifeEvent.exitProcess 1]

/-- The unhandledRejection listener (src/index.js lines 333-335) only logs:
it performs no lifecycle event and the process keeps running. -/
def unhandledRejectionTrace : List LifeEvent := []

/-- Event a occurs before event b in the trace (both occur, and the first
occurrence of a is earlier). -/
def precedesIn (tr : List LifeEvent) (a b : LifeEvent) : Prop :=
  a ∈ tr ∧ b ∈ tr ∧ tr.indexOf a < tr.indexOf b

instance (tr : List LifeEvent) (a b : LifeEvent) :
    Decidable (precedesIn tr a b) := by
  unfold precedesIn
  infer_instance

/-! ## Helper lemmas -/

theorem cut_eq_of_parts (s₁ s₂ : List Char)
    (h1 : s₁.take 5 = s₂.take 5)
    (h2 : s₁.drop (s₁.length - 5) = s₂.drop (s₂.length - 5)) :
    cut s₁ = cut s₂ := by
  by_cases hs₁ : s₁ = []
  · subst hs₁
    have : s₂ = [] := by
      cases s₂ with
      | nil => rfl
      | cons a l => simp at h1
    rw [this]
  · have hs₂ : s₂ ≠ [] := by
      intro h
      subst h
      cases s₁ with
      | nil => exact hs₁ rfl
      | cons a l => simp at h1
    rw [cut, cut, if_neg hs₁, if_neg hs₂, h1, h2]

/-! ## Claim theorems -/

/-- Claim C1: for every request to the stream-listing route, under any
combination of configuration-decoding failure, getStreams (indexer or
provider) failure, and storage-insertion failure, the handler replies with
HTTP status 200 and a JSON body carrying a streams array; it never produces
a 5xx or any other hard error. -/
theorem stream_route_always_ok {Cfg E₁ E₂ E₃ α : Type}
    (decodeRes : Except E₁ Cfg) (getStreams : Cfg → Except E₂ (List α))
    (ins : α → Except E₃ Unit) :
    (streamHandler decodeRes getStreams ins).1.status = 200
    ∧ (streamHandler decodeRes getStreams ins).1.contentType
        = "application/json" := by
  cases decodeRes with
  | error e => exact ⟨rfl, rfl⟩
  | ok cfg =>
    cases hg : getStreams cfg with
    | error e => simp [streamHandler, hg, respond]
    | ok ss =>
      cases hi : insertAll ins ss with
      | error e => simp [streamHandler, hg, hi, respond]
      | ok u => simp [streamHandler, hg, hi, respond]

/-- Claim C2: the download route always answers with a redirect; each of the
five classified debrid errors redirects to its canned video path, and an
unclassified failure redirects to the generic error video. -/
theorem download_error_redirects :
    (∀ r : Except (Option DebridErrorKind) String,
      ∃ loc, downloadHandler r = DownloadReply.redirect loc)
    ∧ downloadHandler (Except.error (some DebridErrorKind.notReady))
        = DownloadReply.redirect "/videos/not_ready.mp4"
    ∧ downloadHandler (Except.error (some DebridErrorKind.expiredApiKey))
        = DownloadReply.redirect "/videos/expired_api_key.mp4"
    ∧ downloadHandler (Except.error (some DebridErrorKind.notPremium))
        = DownloadReply.redirect "/videos/not_premium.mp4"
    ∧ downloadHandler (Except.error (some DebridErrorKind.accessDenied))
        = DownloadReply.redirect "/videos/access_denied.mp4"
    ∧ downloadHandler (Except.error (some DebridErrorKind.twoFactorAuth))
        = DownloadReply.redirect "/videos/two_factor_auth.mp4"
    ∧ downloadHandler (Except.error none)
        = DownloadReply.redirect "/videos/error.mp4" := by
  refine ⟨?_, rfl, rfl, rfl, rfl, rfl, rfl⟩
  intro r
  cases r with
  | ok url => exact ⟨url, rfl⟩
  | error k => exact ⟨errorRedirectTarget k, rfl⟩

/-- Claim C5: the download log line is a function of only the URL's
protocol, host, first and last five characters of the pathname, and first
and last five characters of the query string: two resolved URLs agreeing on
those parts produce identical log output, so the middle of the path is
never leaked. -/
theorem download_log_redacts (id : List Char) (u₁ u₂ : ParsedUrl)
    (hp : u₁.protocol = u₂.protocol) (hh : u₁.host = u₂.host)
    (hp1 : u₁.pathname.take 5 = u₂.pathname.take 5)
    (hp2 : u₁.pathname.drop (u₁.pathname.length - 5)
        = u₂.pathname.drop (u₂.pathname.length - 5))
    (hs1 : u₁.search.take 5 = u₂.search.take 5)
    (hs2 : u₁.search.drop (u₁.search.length - 5)
        = u₂.search.drop (u₂.search.length - 5)) :
    redirectLogLine id u₁ = redirectLogLine id u₂ := by
  unfold redirectLogLine
  rw [hp, hh, cut_eq_of_parts u₁.pathname u₂.pathname hp1 hp2,
    cut_eq_of_parts u₁.search u₂.search hs1 hs2]

theorem download_log_redacts_witness :
    redirectLogLine ("tt0133093").toList
      { protocol := ("https:").toList, host := ("debrid.example").toList,
        pathname := ("/dl/AAATOKENSECRETv.mp4").toList,
        search := ("").toList }
    = redirectLogLine ("tt0133093").toList
      { protocol := ("https:").toList, host := ("debrid.example").toList,
        pathname := ("/dl/AXXv.mp4").toList,
        search := ("").toList } :=
  download_log_redacts ("tt0133093").toList _ _ rfl rfl (by decide) (by decide)
    (by decide) (by decide)

/-- Claim C6 counterexample: with a decoded configuration, two successfully
resolved streams, and a store whose insert fails, the caller does not
receive the resolved stream list (the catch clause replies with an empty
one). -/
theorem stream_persist_failure_changes_result :
    ¬ ((streamHandler (Except.ok (0 : Nat) : Except Nat Nat)
        (fun _ : Nat => (Except.ok [(7 : Nat), 8] : Except Nat (List Nat)))
        (fun _ : Nat => (Except.error 0 : Except Nat Unit))).1.streams
      = [7, 8]) := by decide

/-- Claim C6 (amended): when getStreams succeeds but appending the records
to the stream store fails, the failure is logged and the caller receives the
HTTP 200 JSON reply with an empty streams array instead of the resolved
list; the request itself never fails hard. -/
theorem stream_persist_failure_logged_empty {Cfg E₁ E₂ E₃ α : Type}
    (cfg : Cfg) (getStreams : Cfg → Except E₂ (List α))
    (ins : α → Except E₃ Unit) (ss : List α) (e : E₃)
    (hg : getStreams cfg = Except.ok ss)
    (hi : insertAll ins ss = Except.error e) :
    streamHandler (Except.ok cfg : Except E₁ Cfg) getStreams ins
      = (respond [], true) := by
  simp [streamHandler, hg, hi]

theorem stream_persist_failure_logged_empty_witness :
    streamHandler (Except.ok (0 : Nat) : Except Nat Nat)
      (fun _ : Nat => (Except.ok [(7 : Nat), 8] : Except Nat (List Nat)))
      (fun _ : Nat => (Except.error 0 : Except Nat Unit))
      = (respond [], true) :=
  stream_persist_failure_logged_empty 0 _ _ [7, 8] 0 rfl rfl

theorem rlRun_in_window (W M : Nat) (ts : List Nat) : ∀ (c t0 : Nat),
    (∀ t ∈ ts, t < t0 + W) →
    rlRun W M (some { totalHits := c, resetTime := t0 + W }) ts
      = (some { totalHits := c + ts.length, resetTime := t0 + W },
         (List.range ts.length).map (fun i => decide (c + 1 + i ≤ M))) := by
  induction ts with
  | nil => intro c t0 _; simp [rlRun]
  | cons t ts ih =>
    intro c t0 h
    have ht : ¬ (t0 + W ≤ t) := by
      have := h t (List.mem_cons_self t ts)
      omega
    have hstep : rlIncrement W t (some { totalHits := c, resetTime := t0 + W })
        = { totalHits := c + 1, resetTime := t0 + W } := by
      simp [rlIncrement, ht]
    simp only [rlRun, hstep]
    rw [ih (c + 1) t0 (fun u hu => h u (List.mem_cons_of_mem t hu))]
    simp only [List.length_cons, Prod.mk.injEq]
    refine ⟨?_, ?_⟩
    · have e1 : c + 1 + ts.length = c + (ts.length + 1) := by omega
      rw [e1]
    · rw [List.range_succ_eq_map, List.map_cons, List.map_map]
      refine congrArg₂ List.cons ?_ ?_
      · exact decide_eq_decide.mpr (by omega)
      · apply List.map_congr_left
        intro i _
        simp only [Function.comp_apply]
        exact decide_eq_decide.mpr (by omega)

theorem range_map_le_replicate (m : Nat) :
    (List.range (m + 1)).map (fun i => decide (i + 1 ≤ m))
      = List.replicate m true ++ [false] := by
  rw [List.range_succ, List.map_append]
  refine congrArg₂ HAppend.hAppend ?_ ?_
  · refine List.eq_replicate_iff.mpr ⟨by simp, ?_⟩
    intro b hb
    simp only [List.mem_map, List.mem_range] at hb
    obtain ⟨i, hi, rfl⟩ := hb
    simp only [decide_eq_true_eq]
    omega
  · have hm : ¬ (m + 1 ≤ m) := by omega
    simp [hm]

/-- Claim C3: for a rate-limiter key, with window W and budget M, a first
request opens the window and the first M requests within it are admitted,
the (M+1)th request within the same window is rejected, and once the window
has elapsed the next request from the key is admitted again. -/
theorem limiter_window_behaviour (W M t0 t' : Nat) (ts : List Nat)
    (hM : 0 < M) (hts : ts.length = M)
    (hin : ∀ t ∈ ts, t < t0 + W) (ht' : t0 + W ≤ t') :
    (rlRun W M none (t0 :: ts)).2 = List.replicate M true ++ [false]
    ∧ (rlRun W M (rlRun W M none (t0 :: ts)).1 [t']).2 = [true] := by
  have hone : (1 : Nat) ≤ M := hM
  have hfirst : rlIncrement W t0 none = { totalHits := 1, resetTime := t0 + W } := rfl
  have hrun : rlRun W M none (t0 :: ts)
      = (some { totalHits := 1 + ts.length, resetTime := t0 + W },
         decide (1 ≤ M)
           :: (List.range ts.length).map (fun i => decide (1 + 1 + i ≤ M))) := by
    simp only [rlRun, hfirst]
    rw [rlRun_in_window W M ts 1 t0 hin]
  constructor
  · rw [hrun]
    simp only [hts]
    rw [decide_eq_true hone]
    obtain ⟨m, rfl⟩ : ∃ m, M = m + 1 := ⟨M - 1, by omega⟩
    rw [List.replicate_succ, List.cons_append]
    refine congrArg (List.cons true) ?_
    rw [← range_map_le_replicate m]
    apply List.map_congr_left
    intro i _
    rw [decide_eq_decide]
    omega
  · rw [hrun]
    have hreset : rlIncrement W t'
        (some { totalHits := 1 + ts.length, resetTime := t0 + W })
        = { totalHits := 1, resetTime := t' + W } := by
      simp [rlIncrement, ht']
    simp only [rlRun, hreset]
    rw [decide_eq_true hone]

theorem limiter_window_behaviour_witness :
    (rlRun 10 2 none [0, 1, 2]).2 = List.replicate 2 true ++ [false]
    ∧ (rlRun 10 2 (rlRun 10 2 none [0, 1, 2]).1 [10]).2 = [true] :=
  limiter_window_behaviour 10 2 0 10 [1, 2] (by decide) (by decide)
    (by decide) (by decide)

theorem lookup_filter_self (k : String) (l : UserConfig) :
    (l.filter (fun p => p.1 != k)).lookup k = none := by
  induction l with
  | nil => rfl
  | cons p l ih =>
    obtain ⟨a, v⟩ := p
    by_cases h : a = k
    · simpa [List.filter_cons, h] using ih
    · have hba : (k == a) = false := by simp [Ne.symm h]
      simp [List.filter_cons, h, List.lookup, hba, ih]

theorem lookup_filter_other (k k' : String) (hne : k' ≠ k) (l : UserConfig) :
    (l.filter (fun p => p.1 != k)).lookup k' = l.lookup k' := by
  induction l with
  | nil => rfl
  | cons p l ih =>
    obtain ⟨a, v⟩ := p
    by_cases h : a = k
    · subst h
      have hba : (k' == a) = false := by simp [hne]
      simp [List.filter_cons, List.lookup, hba, ih]
    · simp [List.filter_cons, h, List.lookup, ih]

theorem lookup_restore_self (d cfg : UserConfig) (k : String) :
    (restoreKey d cfg k).lookup k = d.lookup k := by
  cases hd : d.lookup k with
  | none => simp [restoreKey, hd, lookup_filter_self]
  | some v => simp [restoreKey, hd, List.lookup]

theorem lookup_restore_other (d cfg : UserConfig) (k k' : String)
    (hne : k' ≠ k) :
    (restoreKey d cfg k).lookup k' = cfg.lookup k' := by
  cases hd : d.lookup k with
  | none => simp [restoreKey, hd, lookup_filter_other k k' hne]
  | some v =>
    have hba : (k' == k) = false := by simp [hne]
    simp [restoreKey, hd, List.lookup, hba, lookup_filter_other k k' hne]

theorem enforce_lookup_of_not_mem (d : UserConfig) (k : String) :
    ∀ (ik : List String) (cfg : UserConfig), k ∉ ik →
      (enforceImmutableKeys ik d cfg).lookup k = cfg.lookup k := by
  intro ik
  induction ik with
  | nil => intro cfg _; rfl
  | cons a ik ih =>
    intro cfg hk
    have ha : k ≠ a := fun h => hk (h ▸ List.mem_cons_self a ik)
    have hik : k ∉ ik := fun h => hk (List.mem_cons_of_mem a h)
    simp only [enforceImmutableKeys, List.foldl_cons]
    rw [show List.foldl (restoreKey d) (restoreKey d cfg a) ik
        = enforceImmutableKeys ik d (restoreKey d cfg a) from rfl]
    rw [ih (restoreKey d cfg a) hik, lookup_restore_other d cfg a k ha]

theorem enforce_lookup_of_mem (d : UserConfig) (k : String) :
    ∀ (ik : List String) (cfg : UserConfig), k ∈ ik →
      (enforceImmutableKeys ik d cfg).lookup k = d.lookup k := by
  intro ik
  induction ik with
  | nil => intro cfg h; exact absurd h (List.not_mem_nil k)
  | cons a ik ih =>
    intro cfg hk
    simp only [enforceImmutableKeys, List.foldl_cons]
    by_cases hmem : k ∈ ik
    · exact ih (restoreKey d cfg a) hmem
    · have hka : k = a := by
        rcases List.mem_cons.mp hk with h | h
        · exact h
        · exact absurd h hmem
      subst hka
      rw [show List.foldl (restoreKey d) (restoreKey d cfg k) ik
          = enforceImmutableKeys ik d (restoreKey d cfg k) from rfl]
      rw [enforce_lookup_of_not_mem d k ik (restoreKey d cfg k) hmem,
        lookup_restore_self d cfg k]

/-- Claim C4: for every client-supplied configuration blob containing an
immutable (server-enforced) key, the effective configuration used by the
request handlers carries the server default for that key, never the client
value, and the presence of the key does not turn decoding into a hard
failure. -/
theorem immutable_keys_use_server_default (ik : List String)
    (d client : UserConfig) (k : String) (hk : k ∈ ik) :
    effectiveUserConfig ik d (Except.ok client)
        = Except.ok (enforceImmutableKeys ik d client)
    ∧ (enforceImmutableKeys ik d client).lookup k = d.lookup k :=
  ⟨rfl, enforce_lookup_of_mem d k ik client hk⟩

theorem immutable_keys_use_server_default_witness :
    effectiveUserConfig ["indexers"] [("indexers", ConfVal.str "serverdefault")]
        (Except.ok [("indexers", ConfVal.str "clientvalue")])
      = Except.ok (enforceImmutableKeys ["indexers"]
          [("indexers", ConfVal.str "serverdefault")]
          [("indexers", ConfVal.str "clientvalue")])
    ∧ (enforceImmutableKeys ["indexers"]
        [("indexers", ConfVal.str "serverdefault")]
        [("indexers", ConfVal.str "clientvalue")]).lookup "indexers"
      = [("indexers", ConfVal.str "serverdefault")].lookup "indexers" :=
  immutable_keys_use_server_default ["indexers"] _ _ "indexers" (by decide)

/-- Claim C7 (code-bug evidence): at a route-level rejection on the stream
route the handler does produce the HTTP 200 body with the single synthetic
entry stating the retry interval, but at the globally installed app.use
limiter pass — the only limiter pass any non-stream route goes through —
the handler faults reading req.route.path (req.route is undefined outside a
route), so the claimed standard rate-limit reply is never produced there. -/
theorem limiter_rejection_fault :
    limiterHandler "Jackettio" (RouteCtx.routeLevel streamRoutePath) 60000
      = HandlerOutcome.reply
          (RLReply.streamJson 200 [("Jackettio", rateLimitTitle 60000, "#")])
    ∧ limiterHandler "Jackettio" RouteCtx.appLevel 60000
        = HandlerOutcome.faulted
    ∧ limiterHandler "Jackettio" RouteCtx.appLevel 60000
        ≠ HandlerOutcome.reply
            (RLReply.plain rateLimitStatusCode rateLimitMessage) := by
  refine ⟨by simp [limiterHandler], rfl, by simp [limiterHandler]⟩

/-- Claim C8: on a termination signal (SIGINT or SIGTERM) the process clears
every recurring timer before the store flush, flushes the store before the
listener is closed, closes the listener before exiting, and the exit — the
last event — carries status 0. -/
theorem graceful_shutdown_ordered (s : Signal) :
    (∀ t : TimerId,
      precedesIn (closeGracefullyTrace s) (LifeEvent.clearTimer t)
        LifeEvent.flushStore)
    ∧ precedesIn (closeGracefullyTrace s) LifeEvent.flushStore
        LifeEvent.closeListener
    ∧ precedesIn (closeGracefullyTrace s) LifeEvent.closeListener
        (LifeEvent.exitProcess 0)
    ∧ (closeGracefullyTrace s).getLast? = some (LifeEvent.exitProcess 0) := by
  cases s <;>
    exact ⟨fun t => by cases t <;> decide, by decide, by decide, by decide⟩

/-- Claim C9 counterexample: the uncaught-exception path performs no
timer-stop and no listener-close event, and the unhandled-rejection path
performs no exit at all, so an uncaught fault does not trigger the same
drain sequence as a termination signal. -/
theorem uncaught_fault_no_full_drain :
    (LifeEvent.closeListener ∉ uncaughtExceptionTrace)
    ∧ (∀ t : TimerId, LifeEvent.clearTimer t ∉ uncaughtExceptionTrace)
    ∧ (∀ c : Nat, LifeEvent.exitProcess c ∉ unhandledRejectionTrace) := by
  refine ⟨by decide, fun t => by cases t <;> decide, fun c h => ?_⟩
  simp [unhandledRejectionTrace] at h

/-- Claim C9 (amended): an uncaught exception flushes the stream store and
only then exits, with the non-zero status 1, but does not stop the
recurring timers and does not close the listener; an unhandled promise
rejection is only logged and performs no lifecycle event at all. -/
theorem uncaught_fault_flush_then_nonzero_exit :
    precedesIn uncaughtExceptionTrace LifeEvent.flushStore
      (LifeEvent.exitProcess 1)
    ∧ uncaughtExceptionTrace.getLast? = some (LifeEvent.exitProcess 1)
    ∧ unhandledRejectionTrace = [] :=
  ⟨by decide, by decide, rfl⟩

/-- Claim C10 counterexample: a stream-route request carrying a
CF-Connecting-IP header different from the connection IP is admitted, yet
afterwards the connection-IP counter and the header-IP counter each hold a
single hit — no per-client counter was incremented by two, because the
global limiter pass runs before req.clientIp is assigned. -/
theorem stream_double_count_cex :
    (streamRoutePass 10 5 (fun _ => none) "1.1.1.1" (some "2.2.2.2") 0).2
      = true
    ∧ (streamRoutePass 10 5 (fun _ => none) "1.1.1.1" (some "2.2.2.2") 0).1
        "1.1.1.1" = some { totalHits := 1, resetTime := 10 }
    ∧ (streamRoutePass 10 5 (fun _ => none) "1.1.1.1" (some "2.2.2.2") 0).1
        "2.2.2.2" = some { totalHits := 1, resetTime := 10 } := by
  refine ⟨by decide, by decide, by decide⟩

/-- Claim C10 (amended): a stream-route request passes the same limiter
twice — the global app.use pass keyed on the connection IP and the
route-level pass keyed on req.clientIp — so whenever the two keys coincide
(no CF-Connecting-IP header) and the global pass admits the request within
the live window, that client's counter is incremented by two. -/
theorem stream_double_count_amended (W M now c rt : Nat) (ip : String)
    (st : String → Option RLEntry)
    (hst : st ip = some { totalHits := c, resetTime := rt })
    (hw : now < rt) (hadm : c + 1 ≤ M) :
    (streamRoutePass W M st ip none now).1 ip
      = some { totalHits := c + 2, resetTime := rt } := by
  have hnl : ¬ (rt ≤ now) := by omega
  simp [streamRoutePass, rlStoreIncr, rlIncrement, hst, hnl, hadm]

theorem stream_double_count_amended_witness :
    (streamRoutePass 10 5
        (fun k => if k = "9.9.9.9"
          then some { totalHits := 1, resetTime := 7 } else none)
        "9.9.9.9" none 3).1 "9.9.9.9"
      = some { totalHits := 3, resetTime := 7 } :=
  stream_double_count_amended 10 5 3 1 7 "9.9.9.9"
    (fun k => if k = "9.9.9.9"
      then some { totalHits := 1, resetTime := 7 } else none)
    (by decide) (by decide) (by decide)
